import Mathlib

/-!
Verification development for the `gemini-rust` client library.

The definitions below are a shallow embedding of the library's source:

* `src/models.rs` — conversation data model (`Role`, `Part`, `Content`,
  `Candidate`, `GenerationResponse`, `GenerationConfig`, …);
* `src/tools.rs` — function/tool schema bridge (`FunctionParameters`,
  `PropertyDetails`, `value_to_function_parameters`, `FunctionCall::get`);
* `src/client.rs` — request builder (`ContentBuilder`) and the streaming
  response decoder of `GeminiClient::generate_content_stream`;
* `src/error.rs` — the `Error` taxonomy.

External library behaviour the code relies on is modelled explicitly:
`serde_json` parsing is embedded as a fuel-indexed recursive-descent JSON
parser plus per-type decoders mirroring the derived `Deserialize`
implementations; `reqwest` transport chunks are modelled as a list of
`Except`-wrapped strings (text after `String::from_utf8_lossy`); machine
numbers carry their literal values as `Rat` since no arithmetic is ever
performed on them.
-/

namespace Gemini

/-- JSON values, as in `serde_json::Value`.  Objects are association lists in
document order; numbers are carried as exact rationals (the library never
does arithmetic on them). -/
inductive Json where
  | null : Json
  | bool (b : Bool) : Json
  | num (q : Rat) : Json
  | str (s : String) : Json
  | arr (elems : List Json) : Json
  | obj (fields : List (String × Json)) : Json

namespace Json

/-- Source: `serde_json::Map::get`: first binding of the key, if any. -/
def getKey : List (String × Json) → String → Option Json
  | [], _ => none
  | (k, v) :: rest, key => if k = key then some v else getKey rest key

/-- Source: `Value::as_str`. -/
def asStr : Json → Option String
  | .str s => some s
  | _ => none

/-- Source: `Value::as_array`. -/
def asArr : Json → Option (List Json)
  | .arr xs => some xs
  | _ => none

/-- Source: `Value::as_object`. -/
def asObj : Json → Option (List (String × Json))
  | .obj fs => some fs
  | _ => none

end Json

-- quick sanity examples (evaluation of string literals by the kernel)
example : ("ab".toList) = ['a', 'b'] := rfl
example : Json.getKey [("a", Json.num 1)] "a" = some (Json.num 1) := rfl

/-! ## `src/tools.rs`: schema bridge -/

/-- Source: `tools.rs` `PropertyDetails` (recursive through the optional `items`
box, hence an inductive with accessor functions). -/
inductive PropertyDetails where
  | mk (property_type : String) (description : String)
      (enum_values : Option (List String)) (items : Option PropertyDetails)

def PropertyDetails.property_type : PropertyDetails → String
  | .mk t _ _ _ => t

def PropertyDetails.description : PropertyDetails → String
  | .mk _ d _ _ => d

def PropertyDetails.enum_values : PropertyDetails → Option (List String)
  | .mk _ _ e _ => e

def PropertyDetails.items : PropertyDetails → Option PropertyDetails
  | .mk _ _ _ i => i

/-- Source: `PropertyDetails::string`. -/
def PropertyDetails.string (description : String) : PropertyDetails :=
  .mk "STRING" description none none

/-- Source: `PropertyDetails::number`. -/
def PropertyDetails.number (description : String) : PropertyDetails :=
  .mk "NUMBER" description none none

/-- Source: `PropertyDetails::integer`. -/
def PropertyDetails.integer (description : String) : PropertyDetails :=
  .mk "INTEGER" description none none

/-- Source: `PropertyDetails::boolean`. -/
def PropertyDetails.boolean (description : String) : PropertyDetails :=
  .mk "BOOLEAN" description none none

/-- Rust `str::to_uppercase`, restricted to its ASCII action (every string
the library uppercases is ASCII).  Defined over the character list so it
reduces in the kernel. -/
def rustToUppercase (s : String) : String :=
  String.mk (s.data.map Char.toUpper)

mutual

/-- Source: `tools.rs` `extract_property_details`; `itemsDetails` inlines
`obj.get("items").and_then(extract_property_details)` so the recursion is
structural over the nested `Json`. -/
def extract_property_details : Json → Option PropertyDetails
  | .obj fields =>
      some (.mk
        (rustToUppercase (((Json.getKey fields "type").bind Json.asStr).getD "string"))
        (((Json.getKey fields "description").bind Json.asStr).getD "")
        (((Json.getKey fields "enum").bind Json.asArr).map
          (fun arr => arr.filterMap Json.asStr))
        (itemsDetails fields))
  | _ => none

def itemsDetails : List (String × Json) → Option PropertyDetails
  | [] => none
  | (k, v) :: rest => if k = "items" then extract_property_details v else itemsDetails rest

end

/-- Source: `tools.rs` `FunctionParameters`.  The `HashMap<String, PropertyDetails>`
is modelled as an association list read through `Json.getKey`-style lookup;
`assocInsert` below models `HashMap::insert` (replace or add). -/
structure FunctionParameters where
  param_type : String
  properties : Option (List (String × PropertyDetails))
  required : Option (List String)

/-- Source: `HashMap::insert`: overwrite the binding if the key is present,
otherwise add a binding. -/
def assocInsert {α : Type} : List (String × α) → String → α → List (String × α)
  | [], k, v => [(k, v)]
  | (k', v') :: rest, k, v =>
      if k' = k then (k, v) :: rest else (k', v') :: assocInsert rest k v

/-- Lookup in the modelled property map. -/
def assocFind {α : Type} : List (String × α) → String → Option α
  | [], _ => none
  | (k', v) :: rest, k => if k' = k then some v else assocFind rest k

/-- The `properties` loop of `value_to_function_parameters`: each entry of
the `properties` object whose value yields `Some` details is inserted under
its key (keys of a `serde_json` map are unique, so the resulting map reads
as this list). -/
def collectProps (props : List (String × Json)) : List (String × PropertyDetails) :=
  props.filterMap (fun kv => (extract_property_details kv.2).map (fun pd => (kv.1, pd)))

/-- Source: `tools.rs` `value_to_function_parameters`. -/
def value_to_function_parameters : Json → FunctionParameters
  | .obj obj =>
      { param_type := rustToUppercase (((Json.getKey obj "type").bind Json.asStr).getD "object")
        properties := some (match (Json.getKey obj "properties").bind Json.asObj with
          | some props_obj => collectProps props_obj
          | none => [])
        required := some (match (Json.getKey obj "required").bind Json.asArr with
          | some req_array => req_array.filterMap Json.asStr
          | none => []) }
  | _ =>
      { param_type := "OBJECT", properties := some [], required := some [] }

/-- Source: `FunctionParameters::object`. -/
def FunctionParameters.object : FunctionParameters :=
  { param_type := "OBJECT", properties := some [], required := some [] }

/-- Source: `FunctionParameters::with_property`. -/
def FunctionParameters.with_property (p : FunctionParameters) (name : String)
    (details : PropertyDetails) (required : Bool) : FunctionParameters :=
  { p with
    properties := p.properties.map (fun props => assocInsert props name details)
    required := if required then p.required.map (fun req => req ++ [name]) else p.required }

/-! ## `src/error.rs`: error taxonomy -/

/-- Source: `error.rs` `Error`.  The wrapped `reqwest::Error` and
`serde_json::Error` payloads are modelled by their message strings. -/
inductive Error where
  | HttpError (msg : String)
  | JsonError (msg : String)
  | ApiError (status_code : Nat) (message : String)
  | RequestError (msg : String)
  | MissingApiKey
  | FunctionCallError (msg : String)
  deriving Repr, DecidableEq

/-! ## `FunctionCall` and typed argument extraction -/

/-- Source: `tools.rs` `FunctionCall`. -/
structure FunctionCall where
  name : String
  args : Json

/-- Source: `FunctionCall::get::<T>`; the serde deserializer for `T`
(`serde_json::from_value`) is passed in explicitly, returning either the
typed value or a serde error message. -/
def FunctionCall.get {τ : Type} (deserialize : Json → Except String τ)
    (fc : FunctionCall) (key : String) : Except Error τ :=
  match fc.args with
  | .obj obj =>
      match Json.getKey obj key with
      | some value =>
          match deserialize value with
          | .ok v => .ok v
          | .error e =>
              .error (.FunctionCallError
                ("Error deserializing parameter " ++ key ++ ": " ++ e))
      | none => .error (.FunctionCallError ("Missing parameter: " ++ key))
  | _ => .error (.FunctionCallError "Arguments are not an object")

/-- Source: `serde_json::from_value::<f64>`: any JSON number deserializes; other
shapes are a type error (message text abstracted). -/
def deserializeF64 : Json → Except String Rat
  | .num q => .ok q
  | _ => .error "invalid type: not a number, expected f64"

/-- Source: `serde_json::from_value::<String>`: only a JSON string deserializes. -/
def deserializeString : Json → Except String String
  | .str s => .ok s
  | _ => .error "invalid type: not a string, expected a string"

/-! ## `src/models.rs`: conversation data model -/

/-- Source: `models.rs` `Role`: exactly the three variants the source declares
(`User`, `Model`, `Function`) — the enum has no `System` variant. -/
inductive Role where
  | User
  | Model
  | Function
  deriving Repr, DecidableEq

/-- The wire name of a role under `#[serde(rename_all = "lowercase")]`. -/
def Role.serdeName : Role → String
  | .User => "user"
  | .Model => "model"
  | .Function => "function"

/-- Source: `tools.rs` `FunctionResponse`. -/
structure FunctionResponse where
  name : String
  response : Option Json

/-- Source: `models.rs` `Part` (untagged union of text, function call and function
response). -/
inductive Part where
  | text (text : String)
  | functionCall (function_call : FunctionCall)
  | functionResponse (function_response : FunctionResponse)

/-- Source: `models.rs` `Content`: ordered parts plus at most one role. -/
structure Content where
  parts : List Part
  role : Option Role

/-- Source: `Content::text`. -/
def Content.text (text : String) : Content :=
  { parts := [Part.text text], role := none }

/-- Source: `Content::with_role`. -/
def Content.with_role (c : Content) (role : Role) : Content :=
  { c with role := some role }

/-- Source: `models.rs` `SafetyRating`. -/
structure SafetyRating where
  category : String
  probability : String

/-- Source: `models.rs` `CitationSource`. -/
structure CitationSource where
  uri : Option String
  title : Option String
  start_index : Option Int
  end_index : Option Int
  license : Option String
  publication_date : Option String

/-- Source: `models.rs` `CitationMetadata`. -/
structure CitationMetadata where
  citation_sources : List CitationSource

/-- Source: `models.rs` `UsageMetadata` (i32 counters as integers). -/
structure UsageMetadata where
  prompt_token_count : Int
  candidates_token_count : Int
  total_token_count : Int

/-- Source: `models.rs` `Candidate`. -/
structure Candidate where
  content : Content
  safety_ratings : Option (List SafetyRating)
  citation_metadata : Option CitationMetadata
  finish_reason : Option String
  usage_metadata : Option UsageMetadata

/-- Source: `models.rs` `PromptFeedback`. -/
structure PromptFeedback where
  safety_ratings : List SafetyRating
  block_reason : Option String

/-- Source: `models.rs` `GenerationResponse`. -/
structure GenerationResponse where
  candidates : List Candidate
  prompt_feedback : Option PromptFeedback
  usage_metadata : Option UsageMetadata

/-- Source: `GenerationResponse::text`: first candidate, first part, text payload
only, defaulting to the empty string. -/
def GenerationResponse.text (r : GenerationResponse) : String :=
  ((r.candidates.head?).bind (fun c =>
    (c.content.parts.head?).bind (fun p =>
      match p with
      | Part.text t => some t
      | _ => none))).getD ""

/-- Source: `models.rs` `GenerationConfig`; `f32` fields are modelled by the exact
rational value of their literals (the library stores but never computes
with them). -/
structure GenerationConfig where
  temperature : Option Rat
  top_p : Option Rat
  top_k : Option Int
  max_output_tokens : Option Int
  candidate_count : Option Int
  stop_sequences : Option (List String)
  response_mime_type : Option String
  response_schema : Option Json

/-- Source: `impl Default for GenerationConfig`. -/
def GenerationConfig.default : GenerationConfig :=
  { temperature := some 0.7
    top_p := some 0.95
    top_k := some 40
    max_output_tokens := some 1024
    candidate_count := some 1
    stop_sequences := none
    response_mime_type := none
    response_schema := none }

/-- Source: `tools.rs` `FunctionDeclaration`. -/
structure FunctionDeclaration where
  name : String
  description : String
  parameters : FunctionParameters

/-- Source: `tools.rs` `Tool` (untagged: function declarations or Google Search). -/
inductive Tool where
  | function (function_declarations : List FunctionDeclaration)
  | googleSearch

/-- Source: `models.rs` `FunctionCallingMode`. -/
inductive FunctionCallingMode where
  | Auto
  | Any
  | None

/-- Source: `models.rs` `FunctionCallingConfig`. -/
structure FunctionCallingConfig where
  mode : FunctionCallingMode

/-- Source: `models.rs` `ToolConfig`. -/
structure ToolConfig where
  function_calling_config : Option FunctionCallingConfig

/-! ## `src/client.rs`: `ContentBuilder` -/

/-- Source: `client.rs` `ContentBuilder` (the opaque `Arc<GeminiClient>` handle is
not part of the accumulated request state and is omitted). -/
structure ContentBuilder where
  contents : List Content
  generation_config : Option GenerationConfig
  tools : Option (List Tool)
  tool_config : Option ToolConfig

/-- Source: `ContentBuilder::new`. -/
def ContentBuilder.new : ContentBuilder :=
  { contents := [], generation_config := none, tools := none, tool_config := none }

/-- Source: `ContentBuilder::with_temperature`: lazily install the default config,
then overwrite the `temperature` field. -/
def ContentBuilder.with_temperature (b : ContentBuilder) (temperature : Rat) : ContentBuilder :=
  let b := if b.generation_config.isNone
    then { b with generation_config := some GenerationConfig.default } else b
  match b.generation_config with
  | some config =>
      { b with generation_config := some { config with temperature := some temperature } }
  | none => b

/-- Source: `ContentBuilder::with_top_p`. -/
def ContentBuilder.with_top_p (b : ContentBuilder) (top_p : Rat) : ContentBuilder :=
  let b := if b.generation_config.isNone
    then { b with generation_config := some GenerationConfig.default } else b
  match b.generation_config with
  | some config =>
      { b with generation_config := some { config with top_p := some top_p } }
  | none => b

/-- Source: `ContentBuilder::with_top_k`. -/
def ContentBuilder.with_top_k (b : ContentBuilder) (top_k : Int) : ContentBuilder :=
  let b := if b.generation_config.isNone
    then { b with generation_config := some GenerationConfig.default } else b
  match b.generation_config with
  | some config =>
      { b with generation_config := some { config with top_k := some top_k } }
  | none => b

/-- Source: `ContentBuilder::with_max_output_tokens`. -/
def ContentBuilder.with_max_output_tokens (b : ContentBuilder) (max_output_tokens : Int) :
    ContentBuilder :=
  let b := if b.generation_config.isNone
    then { b with generation_config := some GenerationConfig.default } else b
  match b.generation_config with
  | some config =>
      { b with generation_config := some { config with max_output_tokens := some max_output_tokens } }
  | none => b

/-- Source: `ContentBuilder::with_candidate_count`. -/
def ContentBuilder.with_candidate_count (b : ContentBuilder) (candidate_count : Int) :
    ContentBuilder :=
  let b := if b.generation_config.isNone
    then { b with generation_config := some GenerationConfig.default } else b
  match b.generation_config with
  | some config =>
      { b with generation_config := some { config with candidate_count := some candidate_count } }
  | none => b

/-- Source: `ContentBuilder::with_stop_sequences`. -/
def ContentBuilder.with_stop_sequences (b : ContentBuilder) (stop_sequences : List String) :
    ContentBuilder :=
  let b := if b.generation_config.isNone
    then { b with generation_config := some GenerationConfig.default } else b
  match b.generation_config with
  | some config =>
      { b with generation_config := some { config with stop_sequences := some stop_sequences } }
  | none => b

/-- Source: `ContentBuilder::with_response_mime_type`. -/
def ContentBuilder.with_response_mime_type (b : ContentBuilder) (mime_type : String) :
    ContentBuilder :=
  let b := if b.generation_config.isNone
    then { b with generation_config := some GenerationConfig.default } else b
  match b.generation_config with
  | some config =>
      { b with generation_config := some { config with response_mime_type := some mime_type } }
  | none => b

/-- Source: `ContentBuilder::with_response_schema`. -/
def ContentBuilder.with_response_schema (b : ContentBuilder) (schema : Json) :
    ContentBuilder :=
  let b := if b.generation_config.isNone
    then { b with generation_config := some GenerationConfig.default } else b
  match b.generation_config with
  | some config =>
      { b with generation_config := some { config with response_schema := some schema } }
  | none => b

/-! ## `serde_json::from_str` (modelled): JSON text parser

A fuel-indexed recursive-descent parser producing `Json`; fuel only bounds
nesting/element recursion, so `input.length + 1` always suffices.  Number
literals are read exactly into `Rat`. -/

/-- JSON insignificant whitespace. -/
def isJsonWs (c : Char) : Bool :=
  c = ' ' || c = '\t' || c = '\n' || c = '\r'

/-- Skip insignificant whitespace. -/
def eatWhitespace : List Char → List Char
  | [] => []
  | c :: cs => if isJsonWs c then eatWhitespace cs else c :: cs

/-- Hex digit value. -/
def hexDigitValue (c : Char) : Option Nat :=
  if '0' ≤ c ∧ c ≤ '9' then some (c.toNat - '0'.toNat)
  else if 'a' ≤ c ∧ c ≤ 'f' then some (c.toNat - 'a'.toNat + 10)
  else if 'A' ≤ c ∧ c ≤ 'F' then some (c.toNat - 'A'.toNat + 10)
  else none

/-- Body of a JSON string literal (after the opening quote), with the
common escapes. -/
def parseStringChars : List Char → Option (List Char × List Char)
  | [] => none
  | '"' :: rest => some ([], rest)
  | '\\' :: 'u' :: h1 :: h2 :: h3 :: h4 :: rest => do
      let n1 ← hexDigitValue h1
      let n2 ← hexDigitValue h2
      let n3 ← hexDigitValue h3
      let n4 ← hexDigitValue h4
      let (cs, rem) ← parseStringChars rest
      some (Char.ofNat (((n1 * 16 + n2) * 16 + n3) * 16 + n4) :: cs, rem)
  | '\\' :: e :: rest => do
      let c ← match e with
        | 'n' => some '\n'
        | 't' => some '\t'
        | 'r' => some '\r'
        | '"' => some '"'
        | '/' => some '/'
        | '\\' => some '\\'
        | 'b' => some (Char.ofNat 0x08)
        | 'f' => some (Char.ofNat 0x0c)
        | _ => none
      let (cs, rem) ← parseStringChars rest
      some (c :: cs, rem)
  | c :: rest => do
      let (cs, rem) ← parseStringChars rest
      some (c :: cs, rem)

/-- Longest digit run at the front. -/
def takeDigits : List Char → List Char × List Char
  | [] => ([], [])
  | c :: cs =>
      if c.isDigit then
        let (ds, rest) := takeDigits cs
        (c :: ds, rest)
      else ([], c :: cs)

/-- Digit run to a natural number. -/
def digitsToNat (ds : List Char) : Nat :=
  ds.foldl (fun acc c => acc * 10 + (c.toNat - '0'.toNat)) 0

/-- JSON number literal, read exactly as a rational. -/
def parseNumber (cs : List Char) : Option (Json × List Char) :=
  let (neg, cs1) := match cs with
    | '-' :: rest => (true, rest)
    | _ => (false, cs)
  let (intDs, cs2) := takeDigits cs1
  if intDs.isEmpty then none
  else
    let (fracDs, cs3) := match cs2 with
      | '.' :: rest =>
          let (ds, rest2) := takeDigits rest
          (ds, if ds.isEmpty then cs2 else rest2)
      | _ => ([], cs2)
    if cs3 ≠ cs2 ∧ fracDs.isEmpty then none
    else
      let (expOk, expNeg, expDs, cs4) := match cs3 with
        | 'e' :: rest | 'E' :: rest =>
            let (sign, rest1) := match rest with
              | '-' :: r => (true, r)
              | '+' :: r => (false, r)
              | _ => (false, rest)
            let (ds, rest2) := takeDigits rest1
            (!ds.isEmpty, sign, ds, rest2)
        | _ => (true, false, [], cs3)
      if expOk = false then none
      else
        let mantissa : Int :=
          (if neg then -1 else 1) * (digitsToNat intDs * 10 ^ fracDs.length + digitsToNat fracDs)
        let scale : Int := (if expNeg then -(digitsToNat expDs : Int) else digitsToNat expDs)
          - fracDs.length
        let value : Rat :=
          if 0 ≤ scale then (mantissa * 10 ^ scale.toNat : Int)
          else (mantissa : Rat) / (10 ^ (-scale).toNat : Int)
        some (.num value, cs4)

mutual

/-- One JSON value. -/
def parseValue : Nat → List Char → Option (Json × List Char)
  | 0, _ => none
  | fuel + 1, cs =>
      match eatWhitespace cs with
      | 'n' :: 'u' :: 'l' :: 'l' :: rest => some (.null, rest)
      | 't' :: 'r' :: 'u' :: 'e' :: rest => some (.bool true, rest)
      | 'f' :: 'a' :: 'l' :: 's' :: 'e' :: rest => some (.bool false, rest)
      | '"' :: rest =>
          (parseStringChars rest).map (fun p => (.str (String.mk p.1), p.2))
      | '[' :: rest =>
          (match eatWhitespace rest with
           | ']' :: rest2 => some (.arr [], rest2)
           | cs2 => (parseElems fuel cs2).map (fun p => (.arr p.1, p.2)))
      | '{' :: rest =>
          (match eatWhitespace rest with
           | '}' :: rest2 => some (.obj [], rest2)
           | cs2 => (parseMembers fuel cs2).map (fun p => (.obj p.1, p.2)))
      | cs1 => parseNumber cs1

/-- Comma-separated array elements up to `]`. -/
def parseElems : Nat → List Char → Option (List Json × List Char)
  | 0, _ => none
  | fuel + 1, cs => do
      let (v, rest) ← parseValue fuel cs
      match eatWhitespace rest with
      | ',' :: rest2 => do
          let (vs, rem) ← parseElems fuel rest2
          some (v :: vs, rem)
      | ']' :: rest2 => some ([v], rest2)
      | _ => none

/-- Comma-separated `"key": value` members up to `}`. -/
def parseMembers : Nat → List Char → Option (List (String × Json) × List Char)
  | 0, _ => none
  | fuel + 1, cs => do
      match eatWhitespace cs with
      | '"' :: rest => do
          let (key, rest1) ← parseStringChars rest
          match eatWhitespace rest1 with
          | ':' :: rest2 => do
              let (v, rest3) ← parseValue fuel rest2
              match eatWhitespace rest3 with
              | ',' :: rest4 => do
                  let (ms, rem) ← parseMembers fuel rest4
                  some ((String.mk key, v) :: ms, rem)
              | '}' :: rest4 => some ([(String.mk key, v)], rest4)
              | _ => none
          | _ => none
      | _ => none

end

/-- Source: `serde_json::from_str::<Value>`: parse one JSON document, allowing
trailing whitespace only. -/
def parseJsonText (s : String) : Except String Json :=
  let cs := s.toList
  match parseValue (cs.length + 1) cs with
  | some (v, rest) =>
      if (eatWhitespace rest).isEmpty then .ok v else .error "trailing characters"
  | none => .error "expected value"

/-! ## serde derived deserializers (modelled)

`#[derive(Deserialize)]` semantics for the response types: required fields
error when missing; `Option` fields read missing or `null` as `None`;
unknown fields are ignored; the untagged `Part` tries its variants in
declaration order. -/

/-- An optional struct field. -/
def fieldOpt {α : Type} (fields : List (String × Json)) (key : String)
    (d : Json → Except String α) : Except String (Option α) :=
  match Json.getKey fields key with
  | none => .ok none
  | some .null => .ok none
  | some v => (d v).map some

/-- A required struct field. -/
def fieldReq {α : Type} (fields : List (String × Json)) (key : String)
    (d : Json → Except String α) : Except String α :=
  match Json.getKey fields key with
  | none => .error ("missing field " ++ key)
  | some v => d v

/-- Source: `i32` deserialization (integral JSON numbers only). -/
def deserializeI32 : Json → Except String Int
  | .num q => if q.den = 1 then .ok q.num else .error "invalid type: float, expected i32"
  | _ => .error "invalid type: expected i32"

/-- Source: `Vec<T>` deserialization. -/
def deserializeList {α : Type} (d : Json → Except String α) : Json → Except String (List α)
  | .arr xs => xs.mapM d
  | _ => .error "invalid type: expected a sequence"

/-- Source: `Role` deserialization (`rename_all = "lowercase"`). -/
def decodeRole : Json → Except String Role
  | .str "user" => .ok .User
  | .str "model" => .ok .Model
  | .str "function" => .ok .Function
  | _ => .error "unknown variant of Role"

/-- Source: `FunctionCall` deserialization (`args` is a plain `Value`). -/
def decodeFunctionCall : Json → Except String FunctionCall
  | .obj fields => do
      let name ← fieldReq fields "name" deserializeString
      let args ← fieldReq fields "args" .ok
      .ok { name, args }
  | _ => .error "invalid type: expected struct FunctionCall"

/-- Source: `FunctionResponse` deserialization. -/
def decodeFunctionResponse : Json → Except String FunctionResponse
  | .obj fields => do
      let name ← fieldReq fields "name" deserializeString
      let response ← fieldOpt fields "response" .ok
      .ok { name, response }
  | _ => .error "invalid type: expected struct FunctionResponse"

/-- Untagged `Part`: variants tried in declaration order
(`Text`, then `FunctionCall` under key `functionCall`, then
`FunctionResponse` under key `functionResponse`). -/
def decodePart (v : Json) : Except String Part :=
  match v with
  | .obj fields =>
      match fieldReq fields "text" deserializeString with
      | .ok t => .ok (Part.text t)
      | .error _ =>
          match fieldReq fields "functionCall" decodeFunctionCall with
          | .ok fc => .ok (Part.functionCall fc)
          | .error _ =>
              match fieldReq fields "functionResponse" decodeFunctionResponse with
              | .ok fr => .ok (Part.functionResponse fr)
              | .error _ => .error "data did not match any variant of untagged enum Part"
  | _ => .error "data did not match any variant of untagged enum Part"

/-- Source: `Content` deserialization. -/
def decodeContent : Json → Except String Content
  | .obj fields => do
      let parts ← fieldReq fields "parts" (deserializeList decodePart)
      let role ← fieldOpt fields "role" decodeRole
      .ok { parts, role }
  | _ => .error "invalid type: expected struct Content"

/-- Source: `SafetyRating` deserialization. -/
def decodeSafetyRating : Json → Except String SafetyRating
  | .obj fields => do
      let category ← fieldReq fields "category" deserializeString
      let probability ← fieldReq fields "probability" deserializeString
      .ok { category, probability }
  | _ => .error "invalid type: expected struct SafetyRating"

/-- Source: `CitationSource` deserialization (every field optional). -/
def decodeCitationSource : Json → Except String CitationSource
  | .obj fields => do
      let uri ← fieldOpt fields "uri" deserializeString
      let title ← fieldOpt fields "title" deserializeString
      let start_index ← fieldOpt fields "start_index" deserializeI32
      let end_index ← fieldOpt fields "end_index" deserializeI32
      let license ← fieldOpt fields "license" deserializeString
      let publication_date ← fieldOpt fields "publication_date" deserializeString
      .ok { uri, title, start_index, end_index, license, publication_date }
  | _ => .error "invalid type: expected struct CitationSource"

/-- Source: `CitationMetadata` deserialization. -/
def decodeCitationMetadata : Json → Except String CitationMetadata
  | .obj fields => do
      let citation_sources ← fieldReq fields "citation_sources" (deserializeList decodeCitationSource)
      .ok { citation_sources }
  | _ => .error "invalid type: expected struct CitationMetadata"

/-- Source: `UsageMetadata` deserialization. -/
def decodeUsageMetadata : Json → Except String UsageMetadata
  | .obj fields => do
      let prompt_token_count ← fieldReq fields "prompt_token_count" deserializeI32
      let candidates_token_count ← fieldReq fields "candidates_token_count" deserializeI32
      let total_token_count ← fieldReq fields "total_token_count" deserializeI32
      .ok { prompt_token_count, candidates_token_count, total_token_count }
  | _ => .error "invalid type: expected struct UsageMetadata"

/-- Source: `Candidate` deserialization. -/
def decodeCandidate : Json → Except String Candidate
  | .obj fields => do
      let content ← fieldReq fields "content" decodeContent
      let safety_ratings ← fieldOpt fields "safety_ratings" (deserializeList decodeSafetyRating)
      let citation_metadata ← fieldOpt fields "citation_metadata" decodeCitationMetadata
      let finish_reason ← fieldOpt fields "finish_reason" deserializeString
      let usage_metadata ← fieldOpt fields "usage_metadata" decodeUsageMetadata
      .ok { content, safety_ratings, citation_metadata, finish_reason, usage_metadata }
  | _ => .error "invalid type: expected struct Candidate"

/-- Source: `PromptFeedback` deserialization. -/
def decodePromptFeedback : Json → Except String PromptFeedback
  | .obj fields => do
      let safety_ratings ← fieldReq fields "safety_ratings" (deserializeList decodeSafetyRating)
      let block_reason ← fieldOpt fields "block_reason" deserializeString
      .ok { safety_ratings, block_reason }
  | _ => .error "invalid type: expected struct PromptFeedback"

/-- Source: `GenerationResponse` deserialization. -/
def decodeGenerationResponse : Json → Except String GenerationResponse
  | .obj fields => do
      let candidates ← fieldReq fields "candidates" (deserializeList decodeCandidate)
      let prompt_feedback ← fieldOpt fields "prompt_feedback" decodePromptFeedback
      let usage_metadata ← fieldOpt fields "usage_metadata" decodeUsageMetadata
      .ok { candidates, prompt_feedback, usage_metadata }
  | _ => .error "invalid type: expected struct GenerationResponse"

/-- Source: `serde_json::from_str::<GenerationResponse>`. -/
def parseGenerationResponse (s : String) : Except String GenerationResponse :=
  (parseJsonText s).bind decodeGenerationResponse

/-! ## `client.rs`: streaming response decoder and endpoints -/

/-- Source: `str::lines`, step 1: split at `'\n'` (keeping empty interior pieces). -/
def splitNl : List Char → List (List Char)
  | [] => [[]]
  | '\n' :: rest => [] :: splitNl rest
  | c :: rest =>
      match splitNl rest with
      | l :: ls => (c :: l) :: ls
      | [] => [[c]]

/-- Source: `str::lines`, step 3: strip one trailing carriage return. -/
def dropCR (l : List Char) : List Char :=
  if l.getLast? = some '\r' then l.dropLast else l

/-- Rust `str::lines`: split at `'\n'` with terminator semantics (a final
piece produced by a trailing newline is not yielded), then strip one
trailing `'\r'` per line. -/
def rustLines (text : List Char) : List (List Char) :=
  let parts := splitNl text
  let parts := match parts.getLast? with
    | some [] => parts.dropLast
    | _ => parts
  parts.map dropCR

/-- The SSE significance marker `"data: "`. -/
def dataMarker : List Char := "data: ".toList

/-- The end-of-stream sentinel `"[DONE]"`. -/
def doneSentinel : List Char := "[DONE]".toList

/-- Source: `line.strip_prefix("data: ")`. -/
def stripDataMarker (line : List Char) : Option (List Char) :=
  if dataMarker.isPrefixOf line then some (line.drop dataMarker.length) else none

/-- The loop body of `generate_content_stream`: one decoded line's
contribution to the chunk's element list (`None` for insignificant lines
and the sentinel). -/
def lineToElem (line : List Char) : Option (Except Error GenerationResponse) :=
  match stripDataMarker line with
  | none => none
  | some json_str =>
      if json_str = doneSentinel then none
      else
        match parseGenerationResponse (String.mk json_str) with
        | .ok response => some (.ok response)
        | .error e => some (.error (.JsonError e))

/-- All elements produced from one `Ok` transport chunk. -/
def chunkToElems (text : String) : List (Except Error GenerationResponse) :=
  (rustLines text.toList).filterMap lineToElem

/-- The `map` closure of `generate_content_stream`: an `Ok` chunk becomes
its per-line elements, an `Err` chunk becomes the single element
`Err(Error::HttpError(e))`. -/
def decodeChunkResult : Except String String → List (Except Error GenerationResponse)
  | .ok text => chunkToElems text
  | .error e => [.error (.HttpError e)]

/-- Source: `bytes_stream().map(..).flatten()`: the whole decoded output sequence
of the streaming endpoint, for a transport trace given as a list of chunk
results (chunk text after `String::from_utf8_lossy`). -/
def decodeStream (chunks : List (Except String String)) :
    List (Except Error GenerationResponse) :=
  (chunks.map decodeChunkResult).flatten

/-- An HTTP response as the two endpoints observe it: a status code, the
full body text (what `.text()`/`.json()` read), and the transport's chunked
view of the body (what `.bytes_stream()` yields). -/
structure HttpResponse where
  status : Nat
  body : String
  chunks : List (Except String String)

/-- Source: `reqwest::StatusCode::is_success`: `200..=299`. -/
def statusIsSuccess (status : Nat) : Bool :=
  200 ≤ status && status < 300

/-- Source: `GeminiClient::generate_content_raw` after the transport handed back a
response: non-2xx surfaces `Error::ApiError` with status and raw body;
otherwise the body is parsed via `response.json()` (a decode failure there
is a `reqwest::Error`, hence `Error::HttpError`). -/
def generate_content_raw (response : HttpResponse) : Except Error GenerationResponse :=
  if statusIsSuccess response.status = false then
    .error (.ApiError response.status response.body)
  else
    match parseGenerationResponse response.body with
    | .ok r => .ok r
    | .error e => .error (.HttpError e)

/-- Source: `GeminiClient::generate_content_stream` after the transport handed back
a response: non-2xx surfaces `Error::ApiError` with status and raw body;
otherwise the decoded element sequence of the body stream. -/
def generate_content_stream (response : HttpResponse) :
    Except Error (List (Except Error GenerationResponse)) :=
  if statusIsSuccess response.status = false then
    .error (.ApiError response.status response.body)
  else
    .ok (decodeStream response.chunks)

/-! ## Shared definitions for the theorems -/

/-- The parsed form of `data: \x7b"candidates":[]\x7d`. -/
def emptyResponse : GenerationResponse :=
  { candidates := [], prompt_feedback := none, usage_metadata := none }

/-- Whether a decoded stream element is a transport-level error. -/
def isHttpError : Except Error GenerationResponse → Bool
  | .error (.HttpError _) => true
  | _ => false

/-- The elements produced by a list of already-split lines (the body of the
`for line in text.lines()` loop). -/
def linesToElems (ls : List (List Char)) : List (Except Error GenerationResponse) :=
  ls.filterMap lineToElem

theorem chunkToElems_eq_linesToElems (text : String) :
    chunkToElems text = linesToElems (rustLines text.toList) := rfl

theorem lineToElem_not_http (line : List Char) (r : Except Error GenerationResponse)
    (h : lineToElem line = some r) : isHttpError r = false := by
  unfold lineToElem at h
  rcases hs : stripDataMarker line with _ | js
  · rw [hs] at h; exact absurd h (by simp)
  · rw [hs] at h
    by_cases hd : js = doneSentinel
    · simp [hd] at h
    · simp only [hd, if_false] at h
      rcases hp : parseGenerationResponse (String.mk js) with e | resp
      · rw [hp] at h
        cases h
        rfl
      · rw [hp] at h
        cases h
        rfl

theorem chunkToElems_not_http (text : String) :
    (chunkToElems text).all (fun r => !(isHttpError r)) = true := by
  rw [List.all_eq_true]
  intro r hr
  rcases List.mem_filterMap.mp hr with ⟨line, _, hline⟩
  simp [lineToElem_not_http line r hline]

theorem decodeStream_cons (c : Except String String) (rest : List (Except String String)) :
    decodeStream (c :: rest) = decodeChunkResult c ++ decodeStream rest := by
  simp [decodeStream]

theorem decodeStream_append (l₁ l₂ : List (Except String String)) :
    decodeStream (l₁ ++ l₂) = decodeStream l₁ ++ decodeStream l₂ := by
  simp [decodeStream]

theorem decodeStream_ok_not_http (pre : List String) :
    (decodeStream (pre.map Except.ok)).all (fun r => !(isHttpError r)) = true := by
  induction pre with
  | nil => rfl
  | cons c rest ih =>
      rw [List.map_cons, decodeStream_cons, List.all_append]
      rw [Bool.and_eq_true]
      exact And.intro (chunkToElems_not_http c) ih

/-! ## The claims -/

/-- C1: if the transport trace consists of well-received chunks followed by
one final I/O error (a `reqwest` body stream ends at its first error), the
decoded output is the decoding of the good chunks followed by exactly one
`Error::HttpError` element, which is its final element; no element of the
good-chunk decoding is a transport error, and nothing follows the error
element. -/
theorem C1_transport_error_is_final_element (pre : List String) (e : String) :
    decodeStream (pre.map Except.ok ++ [Except.error e])
        = decodeStream (pre.map Except.ok) ++ [Except.error (Error.HttpError e)]
      ∧ (decodeStream (pre.map Except.ok)).all (fun r => !(isHttpError r)) = true := by
  constructor
  · rw [decodeStream_append]
    rfl
  · exact decodeStream_ok_not_http pre

/-- C7: on a non-2xx HTTP status both endpoints return exactly one
`Error::ApiError` carrying the numeric status code and the full raw body
text; the body is not parsed as a response message and no decoded stream is
produced. -/
theorem C7_non_2xx_is_api_error (response : HttpResponse)
    (h : statusIsSuccess response.status = false) :
    generate_content_raw response = .error (.ApiError response.status response.body)
      ∧ generate_content_stream response
          = .error (.ApiError response.status response.body) := by
  constructor
  · unfold generate_content_raw
    rw [h]
    rfl
  · unfold generate_content_stream
    rw [h]
    rfl

/-- C7 witness: a concrete 404 response with body `not found`. -/
theorem C7_non_2xx_is_api_error_witness :
    generate_content_raw { status := 404, body := "not found", chunks := [] }
        = .error (.ApiError 404 "not found")
      ∧ generate_content_stream { status := 404, body := "not found", chunks := [] }
          = .error (.ApiError 404 "not found") :=
  C7_non_2xx_is_api_error { status := 404, body := "not found", chunks := [] } (by decide)

/-- C8 (against the code as written): the `Role` enum of `models.rs`
declares exactly the three variants `User`, `Model`, `Function` with wire
names `user`, `model`, `function`; no value of `Role` is a system role, so
`ContentBuilder::with_system_prompt`'s `Role::System` (client.rs line 42)
names a variant that does not exist. -/
theorem C8_role_has_no_system_variant :
    ∀ r : Role, (r = Role.User ∨ r = Role.Model ∨ r = Role.Function)
      ∧ Role.serdeName r ∈ ["user", "model", "function"] := by
  intro r
  cases r <;> simp [Role.serdeName]

/-- C10: `GenerationResponse::text` is total; it returns the text of the
first part of the first candidate when that part is a text part, and the
empty string when there are no candidates, the first candidate has no
parts, or the first part is a function call or a function response. -/
theorem C10_text_first_candidate_or_empty (r : GenerationResponse) :
    (r.candidates = [] → r.text = "")
      ∧ (∀ c rest, r.candidates = c :: rest →
          (c.content.parts = [] → r.text = "")
          ∧ (∀ t ps, c.content.parts = Part.text t :: ps → r.text = t)
          ∧ (∀ fc ps, c.content.parts = Part.functionCall fc :: ps → r.text = "")
          ∧ (∀ fr ps, c.content.parts = Part.functionResponse fr :: ps → r.text = "")) := by
  constructor
  · intro h
    simp [GenerationResponse.text, h]
  · intro c rest hc
    refine ⟨fun h => ?_, fun t ps h => ?_, fun fc ps h => ?_, fun fr ps h => ?_⟩ <;>
      simp [GenerationResponse.text, hc, h]

/-- C10 witness: concrete responses exercising all four branches. -/
theorem C10_text_first_candidate_or_empty_witness :
    GenerationResponse.text { candidates := [], prompt_feedback := none, usage_metadata := none } = ""
      ∧ GenerationResponse.text
          { candidates :=
              [{ content := { parts := [Part.text "hello", Part.text "later"], role := some Role.Model },
                 safety_ratings := none, citation_metadata := none,
                 finish_reason := none, usage_metadata := none }],
            prompt_feedback := none, usage_metadata := none } = "hello"
      ∧ GenerationResponse.text
          { candidates :=
              [{ content := { parts := [Part.functionCall { name := "f", args := Json.null }],
                              role := none },
                 safety_ratings := none, citation_metadata := none,
                 finish_reason := none, usage_metadata := none }],
            prompt_feedback := none, usage_metadata := none } = "" := by
  refine ⟨(C10_text_first_candidate_or_empty _).1 rfl, ?_, ?_⟩
  · exact (((C10_text_first_candidate_or_empty _).2 _ _ rfl).2.1) "hello" [Part.text "later"] rfl
  · exact (((C10_text_first_candidate_or_empty _).2 _ _ rfl).2.2.1)
      { name := "f", args := Json.null } [] rfl

/-- Looking up the key just inserted by `HashMap::insert` returns the newly
inserted value (overwrite semantics). -/
theorem assocFind_assocInsert {α : Type} (props : List (String × α)) (k : String) (v : α) :
    assocFind (assocInsert props k v) k = some v := by
  induction props with
  | nil => simp [assocInsert, assocFind]
  | cons hd tl ih =>
      obtain ⟨k', v'⟩ := hd
      by_cases hk : k' = k
      · simp [assocInsert, hk, assocFind]
      · simp [assocInsert, hk, assocFind, ih]

/-- Stripping `"data: "` from a line that starts with it returns the rest
of the line. -/
theorem stripDataMarker_append (s : List Char) :
    stripDataMarker (dataMarker ++ s) = some s := by
  cases s <;> rfl

/-- Lines without the `"data: "` marker produce no element. -/
theorem lineToElem_no_marker (line : List Char)
    (h : dataMarker.isPrefixOf line = false) : lineToElem line = none := by
  simp [lineToElem, stripDataMarker, h]

/-- C9: starting from a builder whose generation config is unset, each
convenience setter installs the full `GenerationConfig::default` —
temperature 0.7, top-p 0.95, top-k 40, max output tokens 1024, candidate
count 1 — and then overwrites only its own field. -/
theorem C9_setters_install_full_default (b : ContentBuilder)
    (h : b.generation_config = none) (t p : Rat) (k m c : Int)
    (ss : List String) (mt : String) (sch : Json) :
    (b.with_temperature t).generation_config
        = some { temperature := some t, top_p := some 0.95, top_k := some 40,
                 max_output_tokens := some 1024, candidate_count := some 1,
                 stop_sequences := none, response_mime_type := none, response_schema := none }
      ∧ (b.with_top_p p).generation_config
          = some { GenerationConfig.default with top_p := some p }
      ∧ (b.with_top_k k).generation_config
          = some { GenerationConfig.default with top_k := some k }
      ∧ (b.with_max_output_tokens m).generation_config
          = some { GenerationConfig.default with max_output_tokens := some m }
      ∧ (b.with_candidate_count c).generation_config
          = some { GenerationConfig.default with candidate_count := some c }
      ∧ (b.with_stop_sequences ss).generation_config
          = some { GenerationConfig.default with stop_sequences := some ss }
      ∧ (b.with_response_mime_type mt).generation_config
          = some { GenerationConfig.default with response_mime_type := some mt }
      ∧ (b.with_response_schema sch).generation_config
          = some { GenerationConfig.default with response_schema := some sch } := by
  refine ⟨?_, ?_, ?_, ?_, ?_, ?_, ?_, ?_⟩ <;>
    simp [ContentBuilder.with_temperature, ContentBuilder.with_top_p,
      ContentBuilder.with_top_k, ContentBuilder.with_max_output_tokens,
      ContentBuilder.with_candidate_count, ContentBuilder.with_stop_sequences,
      ContentBuilder.with_response_mime_type, ContentBuilder.with_response_schema,
      GenerationConfig.default, h]

/-- C9 witness: the fresh builder with one setter applied. -/
theorem C9_setters_install_full_default_witness :
    (ContentBuilder.new.with_temperature 1).generation_config
        = some { temperature := some 1, top_p := some 0.95, top_k := some 40,
                 max_output_tokens := some 1024, candidate_count := some 1,
                 stop_sequences := none, response_mime_type := none, response_schema := none } :=
  (C9_setters_install_full_default ContentBuilder.new rfl 1 1 1 1 1 [] "" Json.null).1

/-- C6: `with_property` overwrites the map entry for the name, appends the
name to the required list exactly when the flag is set (with no
de-duplication, so a repeated required add appears twice), and the
`object().with_property("a", number, true)` example yields required
exactly `["a"]` with `"a"` mapped to a NUMBER-typed entry. -/
theorem C6_with_property_map_and_required (p : FunctionParameters)
    (name : String) (d : PropertyDetails) (r : Bool) :
    (∀ props, p.properties = some props →
        (p.with_property name d r).properties = some (assocInsert props name d)
        ∧ assocFind (assocInsert props name d) name = some d)
      ∧ (r = true →
          (p.with_property name d r).required = p.required.map (fun req => req ++ [name]))
      ∧ (r = false → (p.with_property name d r).required = p.required)
      ∧ (FunctionParameters.object.with_property "a" (PropertyDetails.number "desc") true).required
          = some ["a"]
      ∧ ((FunctionParameters.object.with_property "a" (PropertyDetails.number "desc") true).properties).map
          (fun props => assocFind props "a") = some (some (PropertyDetails.number "desc"))
      ∧ ((FunctionParameters.object.with_property "a" (PropertyDetails.number "desc") true).with_property
            "a" (PropertyDetails.number "desc") true).required = some ["a", "a"] := by
  refine ⟨?_, ?_, ?_, rfl, rfl, rfl⟩
  · intro props hp
    exact ⟨by simp [FunctionParameters.with_property, hp], assocFind_assocInsert props name d⟩
  · intro hr
    simp [FunctionParameters.with_property, hr]
  · intro hr
    simp [FunctionParameters.with_property, hr]

/-- C6 witness: the overwrite and required-append facts at the empty
object schema. -/
theorem C6_with_property_map_and_required_witness :
    (FunctionParameters.object.with_property "a" (PropertyDetails.number "desc") true).properties
        = some (assocInsert [] "a" (PropertyDetails.number "desc"))
      ∧ (FunctionParameters.object.with_property "a" (PropertyDetails.number "desc") false).required
          = FunctionParameters.object.required :=
  ⟨((C6_with_property_map_and_required FunctionParameters.object "a"
      (PropertyDetails.number "desc") true).1 [] rfl).1,
   (C6_with_property_map_and_required FunctionParameters.object "a"
      (PropertyDetails.number "desc") false).2.2.1 rfl⟩

/-- C5: `FunctionCall::get` returns a typed `FunctionCallError` (it is a
total function, never a panic) when the args value is not a JSON object,
when the key is absent, or when the value under the key fails to
deserialize; otherwise it returns the deserialized value.  On args
`\x7b"a":1\x7d`, `get::<f64>("b")` fails with the missing-parameter message and
`get::<String>("a")` fails with the deserialization-error message. -/
theorem C5_function_call_get_errors {τ : Type} (deserialize : Json → Except String τ)
    (fc : FunctionCall) (key : String) :
    (Json.asObj fc.args = none →
        fc.get deserialize key = .error (.FunctionCallError "Arguments are not an object"))
      ∧ (∀ fields, fc.args = Json.obj fields →
          (Json.getKey fields key = none →
            fc.get deserialize key
              = .error (.FunctionCallError ("Missing parameter: " ++ key)))
          ∧ (∀ v, Json.getKey fields key = some v →
              (∀ e, deserialize v = .error e →
                fc.get deserialize key = .error (.FunctionCallError
                  ("Error deserializing parameter " ++ key ++ ": " ++ e)))
              ∧ (∀ x, deserialize v = .ok x → fc.get deserialize key = .ok x)))
      ∧ FunctionCall.get deserializeF64 { name := "call", args := Json.obj [("a", Json.num 1)] } "b"
          = .error (.FunctionCallError "Missing parameter: b")
      ∧ FunctionCall.get deserializeString { name := "call", args := Json.obj [("a", Json.num 1)] } "a"
          = .error (.FunctionCallError
              "Error deserializing parameter a: invalid type: not a string, expected a string") := by
  refine ⟨?_, ?_, rfl, rfl⟩
  · intro h
    rcases hargs : fc.args <;> simp [FunctionCall.get, hargs] <;>
      simp [Json.asObj, hargs] at h
  · intro fields hf
    refine ⟨fun hk => ?_, fun v hv => ⟨fun e he => ?_, fun x hx => ?_⟩⟩
    · simp [FunctionCall.get, hf, hk]
    · simp [FunctionCall.get, hf, hv, he]
    · simp [FunctionCall.get, hf, hv, hx]

/-- C5 witness: each error branch and the success branch at concrete
inputs. -/
theorem C5_function_call_get_errors_witness :
    FunctionCall.get deserializeF64 { name := "call", args := Json.num 1 } "a"
        = .error (.FunctionCallError "Arguments are not an object")
      ∧ FunctionCall.get deserializeF64 { name := "call", args := Json.obj [("a", Json.num 1)] } "b"
          = .error (.FunctionCallError "Missing parameter: b")
      ∧ FunctionCall.get deserializeString { name := "call", args := Json.obj [("a", Json.num 1)] } "a"
          = .error (.FunctionCallError
              "Error deserializing parameter a: invalid type: not a string, expected a string")
      ∧ FunctionCall.get deserializeF64 { name := "call", args := Json.obj [("a", Json.num 1)] } "a"
          = .ok 1 :=
  ⟨(C5_function_call_get_errors deserializeF64 { name := "call", args := Json.num 1 } "a").1 rfl,
   ((C5_function_call_get_errors deserializeF64
      { name := "call", args := Json.obj [("a", Json.num 1)] } "b").2.1 [("a", Json.num 1)] rfl).1 rfl,
   (((C5_function_call_get_errors deserializeString
      { name := "call", args := Json.obj [("a", Json.num 1)] } "a").2.1 [("a", Json.num 1)] rfl).2
      (Json.num 1) rfl).1 "invalid type: not a string, expected a string" rfl,
   (((C5_function_call_get_errors deserializeF64
      { name := "call", args := Json.obj [("a", Json.num 1)] } "a").2.1 [("a", Json.num 1)] rfl).2
      (Json.num 1) rfl).2 1 rfl⟩

/-- The JSON-Schema-shaped example input of the spec's testable property
for `value_to_function_parameters`. -/
def sampleSchema : Json :=
  Json.obj
    [("type", Json.str "object"),
     ("required", Json.arr [Json.str "x"]),
     ("properties", Json.obj
       [("x", Json.obj [("type", Json.str "integer"), ("description", Json.str "d")])])]

/-- C4: `value_to_function_parameters` on the example schema yields type
`OBJECT`, required `["x"]` and property `x` of type `INTEGER` with
description `d`; a non-object value yields the empty `OBJECT` schema;
non-string `required` entries are dropped; the type defaults apply
uppercased; enum values are filtered to strings and `items` is converted
recursively. -/
theorem C4_value_to_function_parameters_rules :
    (value_to_function_parameters sampleSchema).param_type = "OBJECT"
      ∧ (value_to_function_parameters sampleSchema).required = some ["x"]
      ∧ ((value_to_function_parameters sampleSchema).properties).map
          (fun props => assocFind props "x")
          = some (some (PropertyDetails.mk "INTEGER" "d" none none))
      ∧ value_to_function_parameters Json.null
          = { param_type := "OBJECT", properties := some [], required := some [] }
      ∧ (∀ b, value_to_function_parameters (Json.bool b)
          = { param_type := "OBJECT", properties := some [], required := some [] })
      ∧ (∀ q, value_to_function_parameters (Json.num q)
          = { param_type := "OBJECT", properties := some [], required := some [] })
      ∧ (∀ s, value_to_function_parameters (Json.str s)
          = { param_type := "OBJECT", properties := some [], required := some [] })
      ∧ (∀ xs, value_to_function_parameters (Json.arr xs)
          = { param_type := "OBJECT", properties := some [], required := some [] })
      ∧ (value_to_function_parameters (Json.obj
            [("required", Json.arr [Json.str "a", Json.num 1, Json.str "b"])])).required
          = some ["a", "b"]
      ∧ (value_to_function_parameters (Json.obj [])).param_type = "OBJECT"
      ∧ extract_property_details (Json.obj []) = some (PropertyDetails.mk "STRING" "" none none)
      ∧ extract_property_details (Json.obj
            [("type", Json.str "array"),
             ("enum", Json.arr [Json.str "a", Json.num 2]),
             ("items", Json.obj [("type", Json.str "integer")])])
          = some (PropertyDetails.mk "ARRAY" "" (some ["a"])
              (some (PropertyDetails.mk "INTEGER" "" none none))) := by
  refine ⟨rfl, rfl, rfl, rfl, fun b => rfl, fun q => rfl, fun s => rfl, fun xs => rfl,
    rfl, rfl, rfl, rfl⟩

/-- C2: on the two-chunk stream `data: \x7b"candidates":[]\x7d` then
`data: [DONE]`, the decoder yields exactly one successfully parsed message
and nothing else; in general the `"data: "` marker is stripped, the
`[DONE]` sentinel is discarded, unmarked lines contribute nothing, and any
other stripped line contributes the result of parsing it as one JSON
document. -/
theorem C2_marker_sentinel_and_parse :
    decodeStream [Except.ok "data: \x7b\"candidates\":[]\x7d\n", Except.ok "data: [DONE]\n"]
        = [Except.ok emptyResponse]
      ∧ (∀ s : List Char, stripDataMarker (dataMarker ++ s) = some s)
      ∧ lineToElem (dataMarker ++ doneSentinel) = none
      ∧ (∀ line, dataMarker.isPrefixOf line = false → lineToElem line = none)
      ∧ (∀ s resp, s ≠ doneSentinel → parseGenerationResponse (String.mk s) = .ok resp →
          lineToElem (dataMarker ++ s) = some (.ok resp)) := by
  refine ⟨rfl, stripDataMarker_append, rfl, lineToElem_no_marker, ?_⟩
  intro s resp hs hp
  simp [lineToElem, stripDataMarker_append, hs, hp]

/-- C2 witness: the unmarked-line and parsed-line cases at concrete
inputs. -/
theorem C2_marker_sentinel_and_parse_witness :
    lineToElem "event: x".toList = none
      ∧ lineToElem (dataMarker ++ "\x7b\"candidates\":[]\x7d".toList)
          = some (.ok emptyResponse) :=
  ⟨C2_marker_sentinel_and_parse.2.2.2.1 "event: x".toList rfl,
   C2_marker_sentinel_and_parse.2.2.2.2 "\x7b\"candidates\":[]\x7d".toList emptyResponse
     (by decide) rfl⟩

/-- C3: a JSON parse failure on one `"data: "`-marked line contributes
exactly one `Error::JsonError` element and the remaining lines of the
chunk are still processed; chunks after any chunk are always processed
(decoding is per-chunk concatenation); concretely, a malformed line
followed by well-formed lines in the same and a later chunk yields the
error element followed by both parsed messages. -/
theorem C3_parse_failure_is_isolated (s : List Char) (e : String) (ls : List (List Char))
    (chunk : Except String String) (rest : List (Except String String)) :
    (s ≠ doneSentinel → parseGenerationResponse (String.mk s) = .error e →
        linesToElems ((dataMarker ++ s) :: ls)
          = .error (.JsonError e) :: linesToElems ls)
      ∧ decodeStream (chunk :: rest) = decodeChunkResult chunk ++ decodeStream rest
      ∧ decodeStream [Except.ok "data: notjson\ndata: \x7b\"candidates\":[]\x7d\n",
            Except.ok "data: \x7b\"candidates\":[]\x7d\n"]
          = [.error (.JsonError "expected value"), .ok emptyResponse, .ok emptyResponse] := by
  refine ⟨?_, decodeStream_cons chunk rest, rfl⟩
  intro hs hp
  simp [linesToElems, List.filterMap_cons, lineToElem, stripDataMarker_append, hs, hp]

/-- C3 witness: the in-chunk isolation fact at a concrete malformed line
followed by one further line. -/
theorem C3_parse_failure_is_isolated_witness :
    linesToElems [dataMarker ++ "notjson".toList,
        dataMarker ++ "\x7b\"candidates\":[]\x7d".toList]
      = .error (.JsonError "expected value")
        :: linesToElems [dataMarker ++ "\x7b\"candidates\":[]\x7d".toList] :=
  (C3_parse_failure_is_isolated "notjson".toList "expected value"
    [dataMarker ++ "\x7b\"candidates\":[]\x7d".toList] (Except.ok "") []).1
    (by decide) rfl

end Gemini
